import Mathlib

/-!
Shallow embedding of `profile.py` (CloudLab/OpenWhisk cluster creation
script) and verification of its specified properties.

The script defines experiment parameters, validates them, creates a LAN,
provisions `nodeCount` nodes with static IPv4 addresses and block storage,
and attaches one boot-time shell command per node (a "primary" command for
the first node, "secondary" commands for the rest), finally printing the
request RSpec.

Python integers are modelled as `Int` (with `Int.toNat` where `range` is
applied), Python booleans as `Bool`, f-string interpolation as string
concatenation with `toString` / `pyBoolStr`, and the fallible list access
`nodes[0]` as an `Option` result.
-/

/-- Module-level constant `BASE_IP = "10.10.1"`. -/
def BASE_IP : String := "10.10.1"

/-- Module-level constant `BANDWIDTH = 10000000`. -/
def BANDWIDTH : Nat := 10000000

/-- Module-level constant `IMAGE` (disk image URN). -/
def IMAGE : String := "urn:publicid:IDN+wisc.cloudlab.us+image+gwcloudlab-PG0:openwsk-v1:0"

/-- The resolved configuration record produced by `define_parameters`:
the eight parameters with their types from the `pc.defineParameter` calls. -/
structure Params where
  nodeCount : Int
  nodeType : String
  startKubernetes : Bool
  deployOpenWhisk : Bool
  numInvokers : Int
  invokerEngine : String
  schedulerEnabled : Bool
  tempFileSystemSize : Int
deriving DecidableEq

/-- The default parameter values declared in `define_parameters`. -/
def defaultParams : Params :=
  { nodeCount := 3
    nodeType := "m510"
    startKubernetes := true
    deployOpenWhisk := true
    numInvokers := 1
    invokerEngine := "kubernetes"
    schedulerEnabled := false
    tempFileSystemSize := 0 }

/-- Python's rendering of a `bool` inside an f-string: `str(True) = "True"`,
`str(False) = "False"`. -/
def pyBoolStr (b : Bool) : String := if b then "True" else "False"

/-- A `portal.ParameterWarning`: a message plus the list of offending
parameter names. -/
structure ParameterWarning where
  message : String
  fields : List String
deriving DecidableEq

/-- The validation step of `define_parameters` (lines 54-56): if
`not params.startKubernetes and params.deployOpenWhisk`, a
`ParameterWarning` naming the `startKubernetes` field is reported via
`pc.reportError`; otherwise no error is reported. -/
def validationErrors (params : Params) : List ParameterWarning :=
  if !params.startKubernetes && params.deployOpenWhisk then
    [{ message := "A Kubernetes cluster must be created to deploy OpenWhisk"
       fields := ["startKubernetes"] }]
  else []

/-- An `rspec.IPv4Address`: address string and netmask. -/
structure IPv4Address where
  addr : String
  mask : String
deriving DecidableEq

/-- A node's `Blockstore`: name, mount point, size string, placement. -/
structure Blockstore where
  name : String
  mountPoint : String
  size : String
  placement : String
deriving DecidableEq

/-- An `rspec.Execute` service: shell and command string. -/
structure Service where
  shell : String
  command : String
deriving DecidableEq

/-- A node descriptor as populated by `create_node` (`request.RawPC` with
disk image, hardware type, one interface address, one blockstore) plus the
services later attached by `addService` in `main`. -/
structure Node where
  name : String
  disk_image : String
  hardware_type : String
  ifaceAddr : IPv4Address
  bs : Blockstore
  services : List Service
deriving DecidableEq

/-- `node.addService(rspec.Execute(...))`: appends a service to the node. -/
def addService (n : Node) (s : Service) : Node :=
  { n with services := n.services ++ [s] }

/-- `create_node(name, nodes, lan, params)` (lines 60-72): builds a node
whose interface address suffix is `1 + len(nodes)`, with blockstore
`name + "-bs"` mounted at `/mydata` sized `f"{params.tempFileSystemSize}GB"`
with placement `"any"`, and appends it to `nodes`.  The LAN side effect
(`lan.addInterface`) is recovered in `mainRun` from the node list, and the
confirmation `print` does not affect the node.  Returns the updated list. -/
def create_node (name : String) (nodes : List Node) (params : Params) :
    List Node :=
  let ip_suffix : Nat := 1 + nodes.length
  let node : Node :=
    { name := name
      disk_image := IMAGE
      hardware_type := params.nodeType
      ifaceAddr := { addr := BASE_IP ++ "." ++ toString ip_suffix
                     mask := "255.255.255.0" }
      bs := { name := name ++ "-bs"
              mountPoint := "/mydata"
              size := toString params.tempFileSystemSize ++ "GB"
              placement := "any" }
      services := [] }
  nodes ++ [node]

/-- The node-creation loop of `main` (lines 84-86):
`for i in range(nodeCount): create_node(f"ow{i+1}", nodes, lan, params)`,
unrolled as a recursion on the number of iterations. -/
def buildNodes (params : Params) : Nat → List Node
  | 0 => []
  | n + 1 => create_node ("ow" ++ toString (n + 1)) (buildNodes params n) params

/-- The secondary boot command template of line 91, for loop index `i`. -/
def secondaryCommand (params : Params) (i : Nat) : String :=
  "/local/repository/start.sh secondary " ++ BASE_IP ++ "." ++ toString i
    ++ " " ++ pyBoolStr params.startKubernetes
    ++ " > /home/cloudlab-openwhisk/start.log 2>&1 &"

/-- The primary boot command of lines 94-96. -/
def primary_cmd (params : Params) : String :=
  "/local/repository/start.sh primary " ++ BASE_IP ++ ".1 "
    ++ toString params.nodeCount ++ " "
    ++ pyBoolStr params.startKubernetes ++ " "
    ++ pyBoolStr params.deployOpenWhisk ++ " "
    ++ toString params.numInvokers ++ " "
    ++ params.invokerEngine ++ " "
    ++ pyBoolStr params.schedulerEnabled
    ++ " > /home/cloudlab-openwhisk/start.log 2>&1"

/-- The body of the loop `for i, node in enumerate(nodes[1:], start=2)`
(lines 89-91): each node in the given list receives the secondary service
with the running index `i`. -/
def addSecondaryLoop (params : Params) : Nat → List Node → List Node
  | _, [] => []
  | i, node :: rest =>
      addService node { shell := "bash", command := secondaryCommand params i }
        :: addSecondaryLoop params (i + 1) rest

/-- Lines 88-91: the loop runs over `nodes[1:]` with `start=2`, leaving
`nodes[0]` untouched. -/
def addSecondaryServices (params : Params) (nodes : List Node) : List Node :=
  match nodes with
  | [] => []
  | h :: t => h :: addSecondaryLoop params 2 t

/-- Line 97: `nodes[0].addService(...)` — fails (Python `IndexError`) when
the node list is empty, hence the `Option`. -/
def attachPrimary (params : Params) : List Node → Option (List Node)
  | [] => none
  | h :: t =>
      some (addService h { shell := "bash", command := primary_cmd params } :: t)

/-- The topology-building part of `main` (lines 79-97): create the nodes,
attach the secondary services, then attach the primary service. -/
def buildTopology (params : Params) : Option (List Node) :=
  attachPrimary params
    (addSecondaryServices params (buildNodes params params.nodeCount.toNat))

/-- The emitted infrastructure descriptor: one LAN with fixed bandwidth
holding every node's interface (added in creation order by `create_node`)
and the node list. -/
structure Descriptor where
  bandwidth : Nat
  lanIfaces : List IPv4Address
  nodes : List Node
deriving DecidableEq

/-- `main` end to end: parameter validation (where `pc.verifyParameters()`
aborts, producing no descriptor, whenever an error was reported), then
topology construction, then the printed RSpec modelled as a `Descriptor`.
A `none` result means no descriptor is produced (validation failure or the
`nodes[0]` access failing). -/
def mainRun (params : Params) : Option Descriptor :=
  match validationErrors params with
  | _ :: _ => none
  | [] =>
      match buildTopology params with
      | none => none
      | some ns =>
          some { bandwidth := BANDWIDTH
                 lanIfaces := ns.map (fun n => n.ifaceAddr)
                 nodes := ns }

/-- The node produced by the k-th (0-indexed) `create_node` call of the
loop in `main`: name `ow{k+1}`, interface suffix `1 + k`. -/
def mkNode (params : Params) (k : Nat) : Node :=
  { name := "ow" ++ toString (k + 1)
    disk_image := IMAGE
    hardware_type := params.nodeType
    ifaceAddr := { addr := BASE_IP ++ "." ++ toString (1 + k)
                   mask := "255.255.255.0" }
    bs := { name := "ow" ++ toString (k + 1) ++ "-bs"
            mountPoint := "/mydata"
            size := toString params.tempFileSystemSize ++ "GB"
            placement := "any" }
    services := [] }

/-- The first-created node after `main` attached its primary service. -/
def finalPrimary (params : Params) : Node :=
  addService (mkNode params 0) { shell := "bash", command := primary_cmd params }

/-- The k-th created node (`k ≥ 1`) after `main` attached its secondary
service (the `enumerate(nodes[1:], start=2)` loop pairs it with index
`k + 1`). -/
def finalSecondary (params : Params) (k : Nat) : Node :=
  addService (mkNode params k)
    { shell := "bash", command := secondaryCommand params (k + 1) }

/-- Whether a command string's last character is the shell background
operator `&` (a detached/background command). -/
def lastCharIsAmp (s : String) : Bool := s.data.getLastD ' ' == '&'

/-- The invalid parameter combination: `deployOpenWhisk` without
`startKubernetes`. -/
def badParams : Params := { defaultParams with startKubernetes := false }

/-- A configuration requesting more nodes than a /24 subnet has usable
host addresses (253). -/
def largeParams : Params := { defaultParams with nodeCount := 300 }

example : (buildNodes defaultParams 3).map (fun n => n.ifaceAddr.addr)
    = ["10.10.1.1", "10.10.1.2", "10.10.1.3"] := by decide

example : (buildNodes defaultParams 3).map (fun n => n.name)
    = ["ow1", "ow2", "ow3"] := by decide

example : (buildTopology defaultParams).map
      (fun ns => ns.map (fun n => n.services.map (fun s => s.command)))
    = some
      [["/local/repository/start.sh primary 10.10.1.1 3 True True 1 kubernetes False > /home/cloudlab-openwhisk/start.log 2>&1"],
       ["/local/repository/start.sh secondary 10.10.1.2 True > /home/cloudlab-openwhisk/start.log 2>&1 &"],
       ["/local/repository/start.sh secondary 10.10.1.3 True > /home/cloudlab-openwhisk/start.log 2>&1 &"]] := by
  decide

/-- The secondary-service pass on a non-empty list leaves the head
untouched and runs the loop from index 2 on the tail. -/
lemma addSecondaryServices_cons (params : Params) (h : Node) (t : List Node) :
    addSecondaryServices params (h :: t) = h :: addSecondaryLoop params 2 t := rfl

/-- `create_node` appends exactly the node `mkNode params nodes.length`
when called with the name the loop in `main` supplies. -/
lemma create_node_eq (nodes : List Node) (params : Params) :
    create_node ("ow" ++ toString (nodes.length + 1)) nodes params
      = nodes ++ [mkNode params nodes.length] := rfl

/-- The node-creation loop produces exactly the nodes
`mkNode params 0, …, mkNode params (n-1)` in order. -/
lemma buildNodes_eq (params : Params) :
    ∀ n : Nat, buildNodes params n = (List.range n).map (mkNode params)
  | 0 => rfl
  | n + 1 => by
      have hl : ((List.range n).map (mkNode params)).length = n := by simp
      have hc := create_node_eq ((List.range n).map (mkNode params)) params
      rw [hl] at hc
      rw [buildNodes, buildNodes_eq params n, hc, List.range_succ, List.map_append]
      rfl

/-- The node list has exactly `n` elements after `n` loop iterations. -/
lemma buildNodes_length (params : Params) (n : Nat) :
    (buildNodes params n).length = n := by
  rw [buildNodes_eq]; simp

/-- The `enumerate(nodes[1:], start=2)` loop attaches to the node of
ordinal `k` the secondary service with index `k + 1`. -/
lemma addSecondaryLoop_eq (params : Params) :
    ∀ (m a : Nat),
      addSecondaryLoop params (a + 2) ((List.range' (a + 1) m).map (mkNode params))
        = (List.range' (a + 1) m).map (finalSecondary params)
  | 0, _ => rfl
  | m + 1, a => by
      rw [List.range'_succ, List.map_cons, List.map_cons, addSecondaryLoop]
      have h1 : a + 1 + 1 = a + 2 := by omega
      have h2 : a + 2 + 1 = a + 1 + 2 := by omega
      rw [h2, addSecondaryLoop_eq params m (a + 1), h1]
      rfl

/-- Master characterization of `main`'s topology construction: for
`nodeCount.toNat = m + 1` the result is the primary node followed by the
`m` secondary nodes of ordinals `1, …, m`. -/
lemma buildTopology_eq (params : Params) (m : Nat)
    (h : params.nodeCount.toNat = m + 1) :
    buildTopology params
      = some (finalPrimary params :: (List.range' 1 m).map (finalSecondary params)) := by
  unfold buildTopology
  rw [h, buildNodes_eq, List.range_eq_range', List.range'_succ, List.map_cons]
  simp only [Nat.zero_add]
  rw [addSecondaryServices_cons]
  have hloop := addSecondaryLoop_eq params m 0
  simp only [Nat.zero_add] at hloop
  rw [hloop]
  rfl

/-- Indexing into the final node list: position `0` is the primary node,
position `k ≥ 1` the secondary node of ordinal `k`. -/
lemma final_get (params : Params) (m k : Nat)
    (hk : k < (finalPrimary params :: (List.range' 1 m).map (finalSecondary params)).length) :
    (finalPrimary params :: (List.range' 1 m).map (finalSecondary params)).get ⟨k, hk⟩
      = if k = 0 then finalPrimary params else finalSecondary params k := by
  cases k with
  | zero => rfl
  | succ j =>
      rw [List.get_eq_getElem]
      simp only [List.getElem_cons_succ, List.getElem_map, List.getElem_range']
      have h1 : 1 + 1 * j = j + 1 := by omega
      rw [h1]
      simp

/-- The final node list for `nodeCount.toNat = m + 1` has `m + 1`
elements. -/
lemma final_length (params : Params) (m : Nat) :
    (finalPrimary params :: (List.range' 1 m).map (finalSecondary params)).length
      = m + 1 := by simp

/-- Claim C1 (counterexample): in the default scenario `nodeCount = 3` the
three created nodes receive addresses ending `.1, .2, .3`, not `.2, .3, .4`
as claimed; the 0-indexed k-th node's host suffix is k+1, not k+2. -/
theorem c1_counterexample :
    (buildNodes defaultParams 3).map (fun n => n.ifaceAddr.addr)
        = ["10.10.1.1", "10.10.1.2", "10.10.1.3"]
      ∧ ¬ ((buildNodes defaultParams 3).map (fun n => n.ifaceAddr.addr)
        = ["10.10.1.2", "10.10.1.3", "10.10.1.4"]) := by decide

/-- Claim C1 (amended): for every run of the topology builder, the k-th
created node (0-indexed) is assigned the IPv4 address whose host suffix is
k+1 on the base subnet; in particular for nodeCount=3 the nodes ow1, ow2,
ow3 receive addresses ending .1, .2, .3. -/
theorem c1_suffix (params : Params) (n k : Nat) (h : k < n) :
    ((buildNodes params n)[k]?).map (fun nd => nd.ifaceAddr.addr)
      = some (BASE_IP ++ "." ++ toString (k + 1)) := by
  rw [buildNodes_eq]
  have hk : k < ((List.range n).map (mkNode params)).length := by simp [h]
  rw [List.getElem?_eq_getElem hk]
  simp only [List.getElem_map, List.getElem_range]
  simp [mkNode, Nat.add_comm]

/-- Witness for C1 (amended): the first created node of the default
scenario gets host suffix 1. -/
theorem c1_suffix_witness :
    ((buildNodes defaultParams 3)[0]?).map (fun nd => nd.ifaceAddr.addr)
      = some (BASE_IP ++ "." ++ toString (0 + 1)) :=
  c1_suffix defaultParams 3 0 (by decide)

/-- Claim C2: for every valid configuration with nodeCount ≥ 1 the builder
produces exactly nodeCount node descriptors, named ow1 through owN in
creation order, with strictly increasing contiguous host suffixes. -/
theorem c2_nodes (params : Params) (h : 1 ≤ params.nodeCount) :
    ∃ ns, buildTopology params = some ns
      ∧ ns.length = params.nodeCount.toNat
      ∧ (∀ (k : Nat) (hk : k < ns.length),
          (ns.get ⟨k, hk⟩).name = "ow" ++ toString (k + 1))
      ∧ ∃ suffix : Nat → Nat,
          (∀ (k : Nat) (hk : k < ns.length),
            (ns.get ⟨k, hk⟩).ifaceAddr.addr = BASE_IP ++ "." ++ toString (suffix k))
          ∧ ∀ k, suffix (k + 1) = suffix k + 1 := by
  obtain ⟨m, hm⟩ : ∃ m, params.nodeCount.toNat = m + 1 :=
    ⟨params.nodeCount.toNat - 1, by omega⟩
  refine ⟨_, buildTopology_eq params m hm, ?_, ?_, ?_⟩
  · rw [final_length, hm]
  · intro k hk
    rw [final_get]
    by_cases h0 : k = 0
    · subst h0
      simp [finalPrimary, addService, mkNode]
    · simp [h0, finalSecondary, addService, mkNode]
  · refine ⟨fun k => k + 1, ?_, fun k => rfl⟩
    intro k hk
    rw [final_get]
    by_cases h0 : k = 0
    · subst h0
      simp [finalPrimary, addService, mkNode, Nat.add_comm]
    · simp [h0, finalSecondary, addService, mkNode, Nat.add_comm]

/-- Witness for C2 at the default configuration. -/
theorem c2_witness :
    ∃ ns, buildTopology defaultParams = some ns
      ∧ ns.length = defaultParams.nodeCount.toNat
      ∧ (∀ (k : Nat) (hk : k < ns.length),
          (ns.get ⟨k, hk⟩).name = "ow" ++ toString (k + 1))
      ∧ ∃ suffix : Nat → Nat,
          (∀ (k : Nat) (hk : k < ns.length),
            (ns.get ⟨k, hk⟩).ifaceAddr.addr = BASE_IP ++ "." ++ toString (suffix k))
          ∧ ∀ k, suffix (k + 1) = suffix k + 1 :=
  c2_nodes defaultParams (by decide)

/-- Claim C3: deployOpenWhisk without startKubernetes triggers a validation
error attributed to the startKubernetes field and no descriptor is
produced; every other combination of the two flags passes validation. -/
theorem c3_validation (params : Params) :
    (params.deployOpenWhisk = true ∧ params.startKubernetes = false →
        validationErrors params
            = [{ message := "A Kubernetes cluster must be created to deploy OpenWhisk"
                 fields := ["startKubernetes"] }]
          ∧ mainRun params = none)
      ∧ (¬ (params.deployOpenWhisk = true ∧ params.startKubernetes = false) →
          validationErrors params = []) := by
  constructor
  · rintro ⟨hd, hs⟩
    refine ⟨?_, ?_⟩
    · simp [validationErrors, hd, hs]
    · simp [mainRun, validationErrors, hd, hs]
  · intro hcon
    cases hs : params.startKubernetes <;> cases hd : params.deployOpenWhisk <;>
      simp_all [validationErrors]

/-- Witness for C3: the bad combination is flagged and blocked; the default
(valid) combination passes validation. -/
theorem c3_witness :
    (validationErrors badParams
          = [{ message := "A Kubernetes cluster must be created to deploy OpenWhisk"
               fields := ["startKubernetes"] }]
        ∧ mainRun badParams = none)
      ∧ validationErrors defaultParams = [] :=
  ⟨(c3_validation badParams).1 ⟨rfl, rfl⟩,
   (c3_validation defaultParams).2 (by decide)⟩

/-- Claim C7: every node's block device is sized
`{tempFileSystemSize}GB` (so `"0GB"` at the boundary value 0), mounted at
`/mydata`, with placement unconstrained (`"any"`). -/
theorem c7_blockstore (params : Params) (h : 1 ≤ params.nodeCount) :
    ∃ ns, buildTopology params = some ns ∧
      ∀ (k : Nat) (hk : k < ns.length),
        (ns.get ⟨k, hk⟩).bs.size = toString params.tempFileSystemSize ++ "GB"
        ∧ (params.tempFileSystemSize = 0 → (ns.get ⟨k, hk⟩).bs.size = "0GB")
        ∧ (ns.get ⟨k, hk⟩).bs.mountPoint = "/mydata"
        ∧ (ns.get ⟨k, hk⟩).bs.placement = "any" := by
  obtain ⟨m, hm⟩ : ∃ m, params.nodeCount.toNat = m + 1 :=
    ⟨params.nodeCount.toNat - 1, by omega⟩
  refine ⟨_, buildTopology_eq params m hm, ?_⟩
  intro k hk
  rw [final_get]
  by_cases h0 : k = 0
  · subst h0
    rw [if_pos rfl]
    refine ⟨rfl, ?_, rfl, rfl⟩
    intro he
    rw [show (finalPrimary params).bs.size
        = toString params.tempFileSystemSize ++ "GB" from rfl, he]
    decide
  · rw [if_neg h0]
    refine ⟨rfl, ?_, rfl, rfl⟩
    intro he
    rw [show (finalSecondary params k).bs.size
        = toString params.tempFileSystemSize ++ "GB" from rfl, he]
    decide

/-- Witness for C7 at the default configuration (tempFileSystemSize = 0). -/
theorem c7_witness :
    ∃ ns, buildTopology defaultParams = some ns ∧
      ∀ (k : Nat) (hk : k < ns.length),
        (ns.get ⟨k, hk⟩).bs.size = toString defaultParams.tempFileSystemSize ++ "GB"
        ∧ (defaultParams.tempFileSystemSize = 0 → (ns.get ⟨k, hk⟩).bs.size = "0GB")
        ∧ (ns.get ⟨k, hk⟩).bs.mountPoint = "/mydata"
        ∧ (ns.get ⟨k, hk⟩).bs.placement = "any" :=
  c7_blockstore defaultParams (by decide)

/-- Claim C8: the generator is deterministic — identical resolved input
configurations yield identical emitted descriptors (the descriptor is a
pure function of the configuration record in this embedding; no node
attribute depends on anything else). -/
theorem c8_deterministic (p1 p2 : Params) (h : p1 = p2) :
    mainRun p1 = mainRun p2 := by rw [h]

/-- Witness for C8 at the default configuration. -/
theorem c8_witness : mainRun defaultParams = mainRun defaultParams :=
  c8_deterministic defaultParams defaultParams rfl

/-- Claim C9: with nodeCount ≥ 1 topology construction always succeeds
(the `nodes[0]` access never hits the empty-list branch), with no upper
bound check: the statement holds for every nodeCount ≥ 1, including values
beyond the 253 usable host addresses of the /24 subnet. -/
theorem c9_total (params : Params) (h : 1 ≤ params.nodeCount) :
    ∃ ns, buildTopology params = some ns
      ∧ ns.length = params.nodeCount.toNat := by
  obtain ⟨m, hm⟩ : ∃ m, params.nodeCount.toNat = m + 1 :=
    ⟨params.nodeCount.toNat - 1, by omega⟩
  exact ⟨_, buildTopology_eq params m hm, by rw [final_length, hm]⟩

/-- Witness for C9 at nodeCount = 300, exceeding the subnet's 253 usable
host addresses: construction still succeeds, demonstrating the absence of
a bound check. -/
theorem c9_witness :
    ∃ ns, buildTopology largeParams = some ns
      ∧ ns.length = largeParams.nodeCount.toNat :=
  c9_total largeParams (by decide)

/-- The primary command begins with the script path and the role word
`primary`. -/
lemma primary_cmd_shape (params : Params) :
    ∃ t, primary_cmd params = "/local/repository/start.sh primary " ++ t := by
  refine ⟨BASE_IP ++ (".1 " ++ (toString params.nodeCount ++ (" "
    ++ (pyBoolStr params.startKubernetes ++ (" "
    ++ (pyBoolStr params.deployOpenWhisk ++ (" "
    ++ (toString params.numInvokers ++ (" "
    ++ (params.invokerEngine ++ (" "
    ++ (pyBoolStr params.schedulerEnabled
    ++ " > /home/cloudlab-openwhisk/start.log 2>&1")))))))))))), ?_⟩
  simp [primary_cmd, String.append_assoc]

/-- The secondary command begins with the script path and the role word
`secondary`. -/
lemma secondary_cmd_shape (params : Params) (i : Nat) :
    ∃ t, secondaryCommand params i
      = "/local/repository/start.sh secondary " ++ t := by
  refine ⟨BASE_IP ++ ("." ++ (toString i ++ (" "
    ++ (pyBoolStr params.startKubernetes
    ++ " > /home/cloudlab-openwhisk/start.log 2>&1 &")))), ?_⟩
  simp [secondaryCommand, String.append_assoc]

/-- The last character of an appended string comes from a non-empty
right part. -/
lemma lastCharIsAmp_append (a b : String) (c : Char) (l : List Char)
    (hb : b.data = l ++ [c]) : lastCharIsAmp (a ++ b) = (c == '&') := by
  unfold lastCharIsAmp
  rw [String.data_append, hb, ← List.append_assoc, List.getLastD_concat]

/-- The primary command runs in the foreground: no trailing `&`. -/
lemma primary_not_background (params : Params) :
    lastCharIsAmp (primary_cmd params) = false := by
  have hb : (" > /home/cloudlab-openwhisk/start.log 2>&1" : String).data
      = (" > /home/cloudlab-openwhisk/start.log 2>&" : String).data ++ ['1'] := by
    decide
  unfold primary_cmd
  rw [lastCharIsAmp_append _ _ _ _ hb]
  decide

/-- Every secondary command is detached: it ends in `&`. -/
lemma secondary_background (params : Params) (i : Nat) :
    lastCharIsAmp (secondaryCommand params i) = true := by
  have hb : (" > /home/cloudlab-openwhisk/start.log 2>&1 &" : String).data
      = (" > /home/cloudlab-openwhisk/start.log 2>&1 " : String).data ++ ['&'] := by
    decide
  unfold secondaryCommand
  rw [lastCharIsAmp_append _ _ _ _ hb]
  decide

/-- The primary node's address (host suffix 1). -/
lemma finalPrimary_addr (params : Params) :
    (finalPrimary params).ifaceAddr.addr = "10.10.1.1" := rfl

/-- The hard-coded `{BASE_IP}.1` in the primary command template equals the
primary node's own assigned address. -/
lemma primary_cmd_own_addr (params : Params) :
    primary_cmd params
      = "/local/repository/start.sh primary " ++ "10.10.1.1" ++ " "
        ++ toString params.nodeCount ++ " "
        ++ pyBoolStr params.startKubernetes ++ " "
        ++ pyBoolStr params.deployOpenWhisk ++ " "
        ++ toString params.numInvokers ++ " "
        ++ params.invokerEngine ++ " "
        ++ pyBoolStr params.schedulerEnabled
        ++ " > /home/cloudlab-openwhisk/start.log 2>&1" := by
  unfold primary_cmd
  rw [show ("/local/repository/start.sh primary " ++ BASE_IP ++ ".1 " : String)
      = "/local/repository/start.sh primary " ++ "10.10.1.1" ++ " " from by decide]

/-- The secondary command attached to the node of ordinal k (paired with
loop index k+1) names exactly that node's own address, whose suffix is
1 + k. -/
lemma secondary_cmd_own (params : Params) (k : Nat) :
    secondaryCommand params (k + 1)
      = "/local/repository/start.sh secondary "
        ++ (BASE_IP ++ "." ++ toString (1 + k)) ++ " "
        ++ pyBoolStr params.startKubernetes
        ++ " > /home/cloudlab-openwhisk/start.log 2>&1 &" := by
  unfold secondaryCommand
  rw [Nat.add_comm 1 k]
  simp [String.append_assoc]

/-- Claim C4: every node carries exactly one boot command; the
first-created node's command has the primary shape and every other node's
command has the secondary shape. -/
theorem c4_roles (params : Params) (h : 1 ≤ params.nodeCount) :
    ∃ ns, buildTopology params = some ns ∧
      ∀ (k : Nat) (hk : k < ns.length),
        (ns.get ⟨k, hk⟩).services.length = 1
        ∧ (k = 0 → ∃ t, (ns.get ⟨k, hk⟩).services.map (fun s => s.command)
            = ["/local/repository/start.sh primary " ++ t])
        ∧ (k ≠ 0 → ∃ t, (ns.get ⟨k, hk⟩).services.map (fun s => s.command)
            = ["/local/repository/start.sh secondary " ++ t]) := by
  obtain ⟨m, hm⟩ : ∃ m, params.nodeCount.toNat = m + 1 :=
    ⟨params.nodeCount.toNat - 1, by omega⟩
  refine ⟨_, buildTopology_eq params m hm, ?_⟩
  intro k hk
  rw [final_get]
  by_cases h0 : k = 0
  · subst h0
    rw [if_pos rfl]
    refine ⟨rfl, fun _ => ?_, fun hne => absurd rfl hne⟩
    obtain ⟨t, ht⟩ := primary_cmd_shape params
    exact ⟨t, by rw [show (finalPrimary params).services.map (fun s => s.command)
      = [primary_cmd params] from rfl, ht]⟩
  · rw [if_neg h0]
    refine ⟨rfl, fun he => absurd he h0, fun _ => ?_⟩
    obtain ⟨t, ht⟩ := secondary_cmd_shape params (k + 1)
    exact ⟨t, by rw [show (finalSecondary params k).services.map (fun s => s.command)
      = [secondaryCommand params (k + 1)] from rfl, ht]⟩

/-- Witness for C4 at the default configuration. -/
theorem c4_witness :
    ∃ ns, buildTopology defaultParams = some ns ∧
      ∀ (k : Nat) (hk : k < ns.length),
        (ns.get ⟨k, hk⟩).services.length = 1
        ∧ (k = 0 → ∃ t, (ns.get ⟨k, hk⟩).services.map (fun s => s.command)
            = ["/local/repository/start.sh primary " ++ t])
        ∧ (k ≠ 0 → ∃ t, (ns.get ⟨k, hk⟩).services.map (fun s => s.command)
            = ["/local/repository/start.sh secondary " ++ t]) :=
  c4_roles defaultParams (by decide)

/-- Claim C5: the primary node's single boot command invokes the bootstrap
script with role `primary`, the node's own assigned address, the node
count, the startKubernetes, deployOpenWhisk flags, invoker count, invoker
engine and schedulerEnabled flag in that order, redirected to the fixed
log path and run in the foreground (no trailing `&`). -/
theorem c5_primary (params : Params) (h : 1 ≤ params.nodeCount) :
    ∃ prim rest, buildTopology params = some (prim :: rest)
      ∧ prim.services
          = [{ shell := "bash"
               command := "/local/repository/start.sh primary "
                 ++ prim.ifaceAddr.addr ++ " "
                 ++ toString params.nodeCount ++ " "
                 ++ pyBoolStr params.startKubernetes ++ " "
                 ++ pyBoolStr params.deployOpenWhisk ++ " "
                 ++ toString params.numInvokers ++ " "
                 ++ params.invokerEngine ++ " "
                 ++ pyBoolStr params.schedulerEnabled
                 ++ " > /home/cloudlab-openwhisk/start.log 2>&1" }]
      ∧ ∀ s ∈ prim.services, lastCharIsAmp s.command = false := by
  obtain ⟨m, hm⟩ : ∃ m, params.nodeCount.toNat = m + 1 :=
    ⟨params.nodeCount.toNat - 1, by omega⟩
  refine ⟨finalPrimary params, _, buildTopology_eq params m hm, ?_, ?_⟩
  · rw [finalPrimary_addr,
      show (finalPrimary params).services
        = [{ shell := "bash", command := primary_cmd params }] from rfl,
      primary_cmd_own_addr]
  · intro s hs
    rw [show (finalPrimary params).services
        = [{ shell := "bash", command := primary_cmd params }] from rfl] at hs
    simp only [List.mem_singleton] at hs
    rw [hs]
    exact primary_not_background params

/-- Witness for C5 at the default configuration. -/
theorem c5_witness :
    ∃ prim rest, buildTopology defaultParams = some (prim :: rest)
      ∧ prim.services
          = [{ shell := "bash"
               command := "/local/repository/start.sh primary "
                 ++ prim.ifaceAddr.addr ++ " "
                 ++ toString defaultParams.nodeCount ++ " "
                 ++ pyBoolStr defaultParams.startKubernetes ++ " "
                 ++ pyBoolStr defaultParams.deployOpenWhisk ++ " "
                 ++ toString defaultParams.numInvokers ++ " "
                 ++ defaultParams.invokerEngine ++ " "
                 ++ pyBoolStr defaultParams.schedulerEnabled
                 ++ " > /home/cloudlab-openwhisk/start.log 2>&1" }]
      ∧ ∀ s ∈ prim.services, lastCharIsAmp s.command = false :=
  c5_primary defaultParams (by decide)

/-- Claim C6: every secondary node's single boot command invokes the
bootstrap script with role `secondary`, that node's own assigned address
(the one placed on its interface) and the startKubernetes flag, redirected
to the fixed log path and detached with a trailing `&`. -/
theorem c6_secondary (params : Params) (h : 2 ≤ params.nodeCount) :
    ∃ ns, buildTopology params = some ns ∧ 2 ≤ ns.length ∧
      ∀ (k : Nat) (hk : k < ns.length), 1 ≤ k →
        (ns.get ⟨k, hk⟩).services
            = [{ shell := "bash"
                 command := "/local/repository/start.sh secondary "
                   ++ (ns.get ⟨k, hk⟩).ifaceAddr.addr ++ " "
                   ++ pyBoolStr params.startKubernetes
                   ++ " > /home/cloudlab-openwhisk/start.log 2>&1 &" }]
          ∧ ∀ s ∈ (ns.get ⟨k, hk⟩).services, lastCharIsAmp s.command = true := by
  obtain ⟨m, hm⟩ : ∃ m, params.nodeCount.toNat = m + 1 :=
    ⟨params.nodeCount.toNat - 1, by omega⟩
  refine ⟨_, buildTopology_eq params m hm, ?_, ?_⟩
  · rw [final_length]
    omega
  · intro k hk hk1
    rw [final_get, if_neg (by omega)]
    constructor
    · rw [show (finalSecondary params k).ifaceAddr.addr
          = BASE_IP ++ "." ++ toString (1 + k) from rfl,
        show (finalSecondary params k).services
          = [{ shell := "bash", command := secondaryCommand params (k + 1) }]
          from rfl,
        secondary_cmd_own]
    · intro s hs
      rw [show (finalSecondary params k).services
          = [{ shell := "bash", command := secondaryCommand params (k + 1) }]
          from rfl] at hs
      simp only [List.mem_singleton] at hs
      rw [hs]
      exact secondary_background params (k + 1)

/-- Witness for C6 at the default configuration (nodeCount = 3). -/
theorem c6_witness :
    ∃ ns, buildTopology defaultParams = some ns ∧ 2 ≤ ns.length ∧
      ∀ (k : Nat) (hk : k < ns.length), 1 ≤ k →
        (ns.get ⟨k, hk⟩).services
            = [{ shell := "bash"
                 command := "/local/repository/start.sh secondary "
                   ++ (ns.get ⟨k, hk⟩).ifaceAddr.addr ++ " "
                   ++ pyBoolStr defaultParams.startKubernetes
                   ++ " > /home/cloudlab-openwhisk/start.log 2>&1 &" }]
          ∧ ∀ s ∈ (ns.get ⟨k, hk⟩).services, lastCharIsAmp s.command = true :=
  c6_secondary defaultParams (by decide)

/-- Claim C10: in every generated boot command the boolean parameters are
serialized with Python's capitalized boolean spelling: every boolean slot
of a command is `pyBoolStr` of the flag, and `pyBoolStr` yields exactly
`"True"` or `"False"`, never lowercase `"true"`/`"false"` or `"0"`/`"1"`. -/
theorem c10_boolSpelling (params : Params) (h : 1 ≤ params.nodeCount) :
    (∀ b : Bool,
        (pyBoolStr b = "True" ∨ pyBoolStr b = "False")
        ∧ pyBoolStr b ≠ "true" ∧ pyBoolStr b ≠ "false"
        ∧ pyBoolStr b ≠ "0" ∧ pyBoolStr b ≠ "1")
    ∧ ∃ ns, buildTopology params = some ns ∧
        ∀ (k : Nat) (hk : k < ns.length), ∀ s ∈ (ns.get ⟨k, hk⟩).services,
          (∃ u v, s.command = u ++ pyBoolStr params.startKubernetes ++ v)
          ∧ (k = 0 → ∃ u v w x,
              s.command = u ++ pyBoolStr params.startKubernetes
                ++ v ++ pyBoolStr params.deployOpenWhisk
                ++ w ++ pyBoolStr params.schedulerEnabled ++ x) := by
  obtain ⟨m, hm⟩ : ∃ m, params.nodeCount.toNat = m + 1 :=
    ⟨params.nodeCount.toNat - 1, by omega⟩
  constructor
  · intro b
    cases b <;> exact ⟨by decide, by decide, by decide, by decide, by decide⟩
  refine ⟨_, buildTopology_eq params m hm, ?_⟩
  intro k hk s hs
  rw [final_get] at hs
  by_cases h0 : k = 0
  · subst h0
    rw [if_pos rfl,
      show (finalPrimary params).services
        = [{ shell := "bash", command := primary_cmd params }] from rfl] at hs
    simp only [List.mem_singleton] at hs
    subst hs
    constructor
    · refine ⟨"/local/repository/start.sh primary "
        ++ (BASE_IP ++ (".1 " ++ (toString params.nodeCount ++ " "))),
        " " ++ (pyBoolStr params.deployOpenWhisk ++ (" "
          ++ (toString params.numInvokers ++ (" "
          ++ (params.invokerEngine ++ (" "
          ++ (pyBoolStr params.schedulerEnabled
          ++ " > /home/cloudlab-openwhisk/start.log 2>&1"))))))), ?_⟩
      simp [primary_cmd, String.append_assoc]
    · intro _
      refine ⟨"/local/repository/start.sh primary "
          ++ (BASE_IP ++ (".1 " ++ (toString params.nodeCount ++ " "))),
        " ",
        " " ++ (toString params.numInvokers ++ (" "
          ++ (params.invokerEngine ++ " "))),
        " > /home/cloudlab-openwhisk/start.log 2>&1", ?_⟩
      simp [primary_cmd, String.append_assoc]
  · rw [if_neg h0,
      show (finalSecondary params k).services
        = [{ shell := "bash", command := secondaryCommand params (k + 1) }]
        from rfl] at hs
    simp only [List.mem_singleton] at hs
    subst hs
    refine ⟨?_, fun he => absurd he h0⟩
    refine ⟨"/local/repository/start.sh secondary "
        ++ (BASE_IP ++ ("." ++ (toString (k + 1) ++ " "))),
      " > /home/cloudlab-openwhisk/start.log 2>&1 &", ?_⟩
    simp [secondaryCommand, String.append_assoc]

/-- Witness for C10 at the default configuration. -/
theorem c10_witness :
    (∀ b : Bool,
        (pyBoolStr b = "True" ∨ pyBoolStr b = "False")
        ∧ pyBoolStr b ≠ "true" ∧ pyBoolStr b ≠ "false"
        ∧ pyBoolStr b ≠ "0" ∧ pyBoolStr b ≠ "1")
    ∧ ∃ ns, buildTopology defaultParams = some ns ∧
        ∀ (k : Nat) (hk : k < ns.length), ∀ s ∈ (ns.get ⟨k, hk⟩).services,
          (∃ u v, s.command = u ++ pyBoolStr defaultParams.startKubernetes ++ v)
          ∧ (k = 0 → ∃ u v w x,
              s.command = u ++ pyBoolStr defaultParams.startKubernetes
                ++ v ++ pyBoolStr defaultParams.deployOpenWhisk
                ++ w ++ pyBoolStr defaultParams.schedulerEnabled ++ x) :=
  c10_boolSpelling defaultParams (by decide)
